import Mathlib

/-
Verification of the DASH runtime communication and locality layers.

The definitions below are shallow embeddings of the C and C++ sources:
  - dart_communication.c (dart_get, dart_get_handle, dart_put_handle,
    dart_wait family, dart_test_local, dart_allreduce, dart_reduce, ...)
  - locality.c (domain lookup, domain_split_tags, group_subdomains)
  - the coarray utility header (sync_images)

Transport (MPI) behaviour is abstracted into environment records whose
boolean fields state whether each transport call succeeds, and lookup
tables for the team registry, the shared-memory map and the segment
table.  Each embedded operation returns the DART return value together
with the observable effects (transfers issued, handle allocations and
releases), so that statements about "no transfer performed" or "the
partially constructed handle was freed" can be made about the model.
-/

namespace DashSpec

/-- DART return codes (dart_ret_t), restricted to the codes reachable in
the embedded operations. -/
inductive DartRet
  | ok
  | errInval
  | errNotfound
  | errOther
deriving DecidableEq, Repr

/-- MAX_CONTIG_ELEMENTS = INT_MAX: the maximum number of elements moved
by a single transport call. -/
def CHUNK : Nat := 2147483647

/-- INT_MAX, used by the waitall family to bound the handle count. -/
def INTMAX : Nat := 2147483647

/-- Observable effects of a communication operation: local or
shared-memory byte copies, chunked or plain transport calls, and the
allocation and release of a handle structure. -/
inductive CommEvent
  | memcpy (nelem : Nat)
  | mpiGet (count : Nat) (chunked : Bool)
  | mpiPut (count : Nat) (chunked : Bool)
  | rget (count : Nat) (chunked : Bool)
  | rput (count : Nat) (chunked : Bool)
  | allocHandle
  | freeHandle
deriving DecidableEq, Repr

/-- Number of occurrences of one event in an event trace. -/
def countEv (e : CommEvent) (l : List CommEvent) : Nat :=
  l.foldl (fun n x => if x = e then n + 1 else n) 0

/-- One sub-request slot of a handle: either the aggregated chunk
transfer of nelem / CHUNK chunks or the remainder transfer of
nelem % CHUNK base elements. -/
inductive SubReq
  | chunks (n : Nat)
  | remainder (n : Nat)
deriving DecidableEq, Repr

/-- Embedding of dart_handle_struct: destination rank, the needs_flush
bit, and the list of pending sub-requests (the C struct holds at most
two request slots, filled in issue order). -/
structure Handle where
  dest : Int
  needsFlush : Bool
  reqs : List SubReq
deriving DecidableEq, Repr

/-- Environment of one RMA call: the team registry entry resolved from
the global pointer and the outcomes of the transport calls the
operation may issue.  A field xOk = false means the corresponding MPI
call returns a failure code. -/
structure TeamEnv where
  known : Bool
  size : Int
  myRank : Int
  sharedTab : Int → Int
  segDispOk : Int → Bool
  segBaseOk : Int → Bool
  mpiGetChunkOk : Bool
  mpiGetRemOk : Bool
  rgetChunkOk : Bool
  rgetRemOk : Bool
  rputChunkOk : Bool
  rputRemOk : Bool

/-- The fields of a global pointer consumed by the embedded operations.
The team id is resolved through TeamEnv.known, and the offset does not
influence any of the verified properties. -/
structure Gptr where
  unitid : Int
  segid : Int
deriving DecidableEq, Repr

/-- Embedding of get_shared_mem: resolve the base pointer of the
co-located target (through the segment table for a collective segment)
and copy locally.  Only the baseptr lookup can fail. -/
def getSharedMem (env : TeamEnv) (g : Gptr) (nelem : Nat) :
    DartRet × List CommEvent :=
  if g.segid ≠ 0 then
    if env.segBaseOk g.segid then (.ok, [.memcpy nelem])
    else (.errInval, [])
  else (.ok, [.memcpy nelem])

/-- Chunked MPI_Get sequence of dart_get: one aggregated call when
nelem / CHUNK > 0, one remainder call when nelem % CHUNK > 0, aborting
with DART_ERR_INVAL at the first failing call. -/
def dartGetChunks (env : TeamEnv) (nelem : Nat) : DartRet × List CommEvent :=
  if nelem / CHUNK > 0 ∧ ¬ env.mpiGetChunkOk then
    (.errInval, [CommEvent.mpiGet (nelem / CHUNK) true])
  else if nelem % CHUNK > 0 ∧ ¬ env.mpiGetRemOk then
    (.errInval,
      (if nelem / CHUNK > 0 then [CommEvent.mpiGet (nelem / CHUNK) true] else []) ++
      [CommEvent.mpiGet (nelem % CHUNK) false])
  else
    (.ok,
      (if nelem / CHUNK > 0 then [CommEvent.mpiGet (nelem / CHUNK) true] else []) ++
      (if nelem % CHUNK > 0 then [CommEvent.mpiGet (nelem % CHUNK) false] else []))

/-- Embedding of dart_get.  The unit id check mirrors
CHECK_UNITID_RANGE literally: it rejects unitid < 0 and
unitid > team size, so unitid equal to the team size passes even
though the log message of the macro documents the range
0 <= unitid < size. -/
def dartGet (env : TeamEnv) (g : Gptr) (nelem : Nat) : DartRet × List CommEvent :=
  if ¬ env.known then (.errInval, [])
  else if g.unitid < 0 ∨ g.unitid > env.size then (.errInval, [])
  else if 0 ≤ g.segid ∧ 0 ≤ env.sharedTab g.unitid then getSharedMem env g nelem
  else if g.segid ≠ 0 then
    if ¬ env.segDispOk g.segid then (.errInval, [])
    else if env.myRank = g.unitid then (.ok, [CommEvent.memcpy nelem])
    else dartGetChunks env nelem
  else if env.myRank = g.unitid then (.ok, [CommEvent.memcpy nelem])
  else dartGetChunks env nelem

/-- Embedding of dart_get_handle.  The caller handle variable is
initialised to DART_HANDLE_NULL on entry (second component none on
every error path); the handle is stored into the caller variable only
after every sub-request was issued successfully.  The shared-memory
fast path completes the operation via get_shared_mem and returns a
NULL handle. -/
def dartGetHandle (env : TeamEnv) (g : Gptr) (nelem : Nat) :
    DartRet × Option Handle × List CommEvent :=
  if ¬ env.known then (.errInval, none, [])
  else if g.unitid < 0 ∨ g.unitid > env.size then (.errInval, none, [])
  else if 0 ≤ g.segid ∧ 0 ≤ env.sharedTab g.unitid then
    ((getSharedMem env g nelem).1, none, (getSharedMem env g nelem).2)
  else if g.segid ≠ 0 ∧ ¬ env.segDispOk g.segid then (.errInval, none, [])
  else if nelem / CHUNK > 0 ∧ ¬ env.rgetChunkOk then
    (.errInval, none,
      [CommEvent.allocHandle, CommEvent.rget (nelem / CHUNK) true,
       CommEvent.freeHandle])
  else if nelem % CHUNK > 0 ∧ ¬ env.rgetRemOk then
    (.errInval, none,
      [CommEvent.allocHandle] ++
      (if nelem / CHUNK > 0 then [CommEvent.rget (nelem / CHUNK) true] else []) ++
      [CommEvent.rget (nelem % CHUNK) false, CommEvent.freeHandle])
  else
    (.ok,
     some ⟨g.unitid, false,
       (if nelem / CHUNK > 0 then [SubReq.chunks (nelem / CHUNK)] else []) ++
       (if nelem % CHUNK > 0 then [SubReq.remainder (nelem % CHUNK)] else [])⟩,
     [CommEvent.allocHandle] ++
     (if nelem / CHUNK > 0 then [CommEvent.rget (nelem / CHUNK) true] else []) ++
     (if nelem % CHUNK > 0 then [CommEvent.rget (nelem % CHUNK) false] else []))

/-- Embedding of dart_put_handle.  Identical structure to
dart_get_handle except that there is no shared-memory fast path, the
requests are MPI_Rput, and needs_flush is set to true. -/
def dartPutHandle (env : TeamEnv) (g : Gptr) (nelem : Nat) :
    DartRet × Option Handle × List CommEvent :=
  if ¬ env.known then (.errInval, none, [])
  else if g.unitid < 0 ∨ g.unitid > env.size then (.errInval, none, [])
  else if g.segid ≠ 0 ∧ ¬ env.segDispOk g.segid then (.errInval, none, [])
  else if nelem / CHUNK > 0 ∧ ¬ env.rputChunkOk then
    (.errInval, none,
      [CommEvent.allocHandle, CommEvent.rput (nelem / CHUNK) true,
       CommEvent.freeHandle])
  else if nelem % CHUNK > 0 ∧ ¬ env.rputRemOk then
    (.errInval, none,
      [CommEvent.allocHandle] ++
      (if nelem / CHUNK > 0 then [CommEvent.rput (nelem / CHUNK) true] else []) ++
      [CommEvent.rput (nelem % CHUNK) false, CommEvent.freeHandle])
  else
    (.ok,
     some ⟨g.unitid, true,
       (if nelem / CHUNK > 0 then [SubReq.chunks (nelem / CHUNK)] else []) ++
       (if nelem % CHUNK > 0 then [SubReq.remainder (nelem % CHUNK)] else [])⟩,
     [CommEvent.allocHandle] ++
     (if nelem / CHUNK > 0 then [CommEvent.rput (nelem / CHUNK) true] else []) ++
     (if nelem % CHUNK > 0 then [CommEvent.rput (nelem % CHUNK) false] else []))

/-- Chunking plan of an RMA transfer of nelem elements, as specified:
one sub-request for the aggregated chunks when nelem / CHUNK > 0 and
one for the remainder when nelem % CHUNK > 0. -/
def chunkPlan (nelem : Nat) : List SubReq :=
  (if nelem / CHUNK > 0 then [SubReq.chunks (nelem / CHUNK)] else []) ++
  (if nelem % CHUNK > 0 then [SubReq.remainder (nelem % CHUNK)] else [])

/-- Sample environment: team of size 4, caller is rank 0, no unit is
co-located, all transport calls succeed. -/
def envW : TeamEnv where
  known := true
  size := 4
  myRank := 0
  sharedTab := fun _ => -1
  segDispOk := fun _ => true
  segBaseOk := fun _ => true
  mpiGetChunkOk := true
  mpiGetRemOk := true
  rgetChunkOk := true
  rgetRemOk := true
  rputChunkOk := true
  rputRemOk := true

/-- Variant of envW in which the target unit is co-located (the
shared-memory fast path fires). -/
def envShared : TeamEnv := { envW with sharedTab := fun _ => 0 }

/-- Variant of envW in which the remainder MPI_Rget and MPI_Rput calls
fail. -/
def envRemFail : TeamEnv := { envW with rgetRemOk := false, rputRemOk := false }

/-- Sample global pointer: target unit 1 in the local allocation
segment. -/
def gW : Gptr := ⟨1, 0⟩

/-- Sample handles produced by dartGetHandle and dartPutHandle on three
elements. -/
def hGW : Handle := ⟨1, false, [SubReq.remainder 3]⟩

/-- Sample handle produced by dartPutHandle on three elements. -/
def hPW : Handle := ⟨1, true, [SubReq.remainder 3]⟩

/-- Environment of the wait family: outcome of MPI_Waitall over the
collected requests and of the MPI_Win_flush calls owed by handles with
needs_flush set. -/
structure WaitEnv where
  waitallOk : Bool
  flushOk : Bool

/-- Number of pending (non-null) requests contributed by one handle
slot, as collected by the waitall loops. -/
def handleReqCount : Option Handle → Nat
  | none => 0
  | some h => h.reqs.length

/-- Embedding of dart_wait_local.  The argument models the caller
handle pointer: none is a NULL pointer, some none a pointer to
DART_HANDLE_NULL.  On MPI failure the handle is not freed. -/
def dartWaitLocal (env : WaitEnv) : Option (Option Handle) → DartRet × Option (Option Handle)
  | none => (.ok, none)
  | some none => (.ok, some none)
  | some (some h) =>
    if h.reqs.length > 0 ∧ ¬ env.waitallOk then (.errInval, some (some h))
    else (.ok, some none)

/-- Embedding of dart_wait: like dart_wait_local but additionally owing
an MPI_Win_flush when needs_flush is set; on success the handle is
freed and the caller variable set to DART_HANDLE_NULL. -/
def dartWait (env : WaitEnv) : Option (Option Handle) → DartRet × Option (Option Handle)
  | none => (.ok, none)
  | some none => (.ok, some none)
  | some (some h) =>
    if h.reqs.length > 0 then
      if ¬ env.waitallOk then (.errInval, some (some h))
      else if h.needsFlush ∧ ¬ env.flushOk then (.errInval, some (some h))
      else (.ok, some none)
    else (.ok, some none)

/-- Embedding of dart_waitall_local.  The checks num_handles = 0 and
num_handles > INT_MAX precede the NULL test of the handle array; when
no request is pending the function returns early without freeing any
handle. -/
def dartWaitallLocal (env : WaitEnv) (handles : Option (List (Option Handle)))
    (n : Nat) : DartRet × Option (List (Option Handle)) :=
  if n = 0 then (.ok, handles)
  else if n > INTMAX then (.errInval, handles)
  else
    match handles with
    | none => (.ok, none)
    | some l =>
      if (l.map handleReqCount).sum > 0 then
        if ¬ env.waitallOk then (.errInval, some l)
        else (.ok, some (l.map (fun _ => none)))
      else (.ok, some l)

/-- Embedding of dart_waitall: as dart_waitall_local plus the
MPI_Win_flush pass over handles with needs_flush before the handles
are freed. -/
def dartWaitall (env : WaitEnv) (handles : Option (List (Option Handle)))
    (n : Nat) : DartRet × Option (List (Option Handle)) :=
  if n = 0 then (.ok, handles)
  else if n > INTMAX then (.errInval, handles)
  else
    match handles with
    | none => (.ok, none)
    | some l =>
      if (l.map handleReqCount).sum > 0 then
        if ¬ env.waitallOk then (.errInval, some l)
        else if (l.any fun oh => (oh.map Handle.needsFlush).getD false) ∧ ¬ env.flushOk
        then (.errInval, some l)
        else (.ok, some (l.map (fun _ => none)))
      else (.ok, some l)

/-- Embedding of dart_test_local.  The outputs are the return value,
the new content of the caller handle variable and the value written to
the is_finished flag.  The source guards the deallocation with
if (is_finished), which tests the flag POINTER rather than the flag
value; the pointer is non-null on every call that reaches the test, so
after a successful MPI_Testall the handle is freed and the caller
variable nulled even when the flag reports not finished. -/
def dartTestLocal (h : Option Handle) (testallOk : Bool) (finished : Bool) :
    DartRet × Option Handle × Int :=
  match h with
  | none => (.ok, none, 1)
  | some hd =>
    if hd.reqs.length = 0 then (.ok, some hd, 1)
    else if ¬ testallOk then (.errOther, some hd, 0)
    else (.ok, none, if finished then 1 else 0)

/-- Environment of the reduction collectives: team registry outcome and
transport reduction outcomes. -/
structure CollEnv where
  known : Bool
  size : Int
  allreduceOk : Bool
  reduceOk : Bool

/-- A transport-level reduction invocation with its element count. -/
inductive RedCall
  | allreduce (nelem : Nat)
  | reduce (nelem : Nat)
deriving DecidableEq, Repr

/-- Embedding of dart_allreduce: the element count is bounded by CHUNK
before the team is even resolved, and the transfer is a single
un-chunked MPI_Allreduce. -/
def dartAllreduce (env : CollEnv) (nelem : Nat) : DartRet × List RedCall :=
  if nelem > CHUNK then (.errInval, [])
  else if ¬ env.known then (.errInval, [])
  else if ¬ env.allreduceOk then (.errInval, [RedCall.allreduce nelem])
  else (.ok, [RedCall.allreduce nelem])

/-- Embedding of dart_reduce: as dart_allreduce plus the
CHECK_UNITID_RANGE test on the root rank. -/
def dartReduce (env : CollEnv) (root : Int) (nelem : Nat) : DartRet × List RedCall :=
  if nelem > CHUNK then (.errInval, [])
  else if ¬ env.known then (.errInval, [])
  else if root < 0 ∨ root > env.size then (.errInval, [])
  else if ¬ env.reduceOk then (.errInval, [RedCall.reduce nelem])
  else (.ok, [RedCall.reduce nelem])

/-- Role taken by one calling unit in the subset barrier sync_images:
either it is not in the subset and returns immediately, or it acts as
root (receiving one byte from every listed non-root unit and then
sending one back), or it acts as leaf toward the given root. -/
inductive SyncRole
  | notInSubset
  | asRoot (others : List Int)
  | asLeaf (rootId : Int)
deriving DecidableEq, Repr

/-- Root unit chosen by sync_images.  The source computes
root = *(std::min(image_ids.begin(), image_ids.end())): std::min of
the two ITERATORS, which is begin() since begin() precedes end(), so
the dereference yields the FIRST element of the container, not its
minimum.  The empty case is unreachable because a caller that finds
itself in the container implies the container is non-empty. -/
def syncImagesRootId (imageIds : List Int) : Int :=
  imageIds.headD 0

/-- Embedding of sync_images for one calling unit: the participation
test, the root selection and the resulting two-phase role. -/
def syncImages (imageIds : List Int) (myid : Int) : SyncRole :=
  if myid ∉ imageIds then .notInSubset
  else if myid = syncImagesRootId imageIds then
    .asRoot (imageIds.filter (fun el => el ≠ syncImagesRootId imageIds))
  else .asLeaf (syncImagesRootId imageIds)

/-- Ceil-sized group bound of domain_split_tags:
max_group_domains = (num_domains + (num_parts - 1)) / num_parts. -/
def splitMaxGroupDomains (numDomains numParts : Int) : Int :=
  (numDomains + (numParts - 1)) / numParts

/-- Size of split group g as computed by domain_split_tags: the full
ceil size unless (g + 1) * max exceeds num_domains, in which case the
source computes (g * max) - num_domains. -/
def splitGroupSize (numDomains numParts g : Int) : Int :=
  if (g + 1) * splitMaxGroupDomains numDomains numParts > numDomains then
    g * splitMaxGroupDomains numDomains numParts - numDomains
  else splitMaxGroupDomains numDomains numParts

/-- Group sizes produced by domain_split_tags for all groups
g = 0 .. num_parts - 1. -/
def splitGroupSizes (numDomains numParts : Int) : List Int :=
  (List.range numParts.toNat).map (fun g => splitGroupSize numDomains numParts g)

/-- Scopes of locality domains (dart_locality_scope_t), restricted to
the values used here. -/
inductive LScope
  | sGlobal
  | sNode
  | sModule
  | sNuma
  | sCore
  | sGroup
deriving DecidableEq, Repr

/-- Locality domain tree node (dart_domain_locality_t).  The dotted
domain tag string is represented by its list of integer components:
the root tag "." is [] and a tag ".1.2" is [1, 2]. -/
inductive Dom where
  | mk (tag : List Nat) (scope : LScope) (relIdx : Nat) (level : Nat)
       (unitIds : List Int) (children : List Dom)

/-- Tag components of a domain node. -/
def Dom.tag : Dom → List Nat
  | .mk t _ _ _ _ _ => t

/-- Scope of a domain node. -/
def Dom.scope : Dom → LScope
  | .mk _ s _ _ _ _ => s

/-- Relative index of a domain node within its parent. -/
def Dom.relIdx : Dom → Nat
  | .mk _ _ i _ _ _ => i

/-- Level of a domain node. -/
def Dom.level : Dom → Nat
  | .mk _ _ _ l _ _ => l

/-- Unit ids covered by a domain node. -/
def Dom.unitIds : Dom → List Int
  | .mk _ _ _ _ u _ => u

/-- Child nodes of a domain node. -/
def Dom.children : Dom → List Dom
  | .mk _ _ _ _ _ c => c

/-- Copy of a node with tag, relative index and level replaced, as done
for the nodes moved under a new group domain. -/
def Dom.setTagIdxLevel (d : Dom) (t : List Nat) (i : Nat) (lvl : Nat) : Dom :=
  match d with
  | .mk _ sc _ _ us cs => .mk t sc i lvl us cs

/-- Copy of a node with only the relative index replaced, as done for
the pre-existing group nodes and the remaining children. -/
def Dom.setRelIdx (d : Dom) (i : Nat) : Dom :=
  match d with
  | .mk t sc _ lvl us cs => .mk t sc i lvl us cs

/-- Copy of a node with the child vector replaced. -/
def Dom.setChildren (d : Dom) (cs : List Dom) : Dom :=
  match d with
  | .mk t sc i lvl us _ => .mk t sc i lvl us cs

/-- Errors of the locality layer. -/
inductive DartErr
  | inval
  | notfound
  | other
deriving DecidableEq, Repr

/-- Embedding of dart__base__locality__domain: descend from the input
node through the child index components of the tag; an index at or
beyond the child count yields DART_ERR_NOTFOUND. -/
def domainAt (d : Dom) : List Nat → Except DartErr Dom
  | [] => Except.ok d
  | i :: rest =>
    if d.children.length ≤ i then Except.error DartErr.notfound
    else
      match d.children[i]? with
      | some c => domainAt c rest
      | none => Except.error DartErr.notfound

/-- Subtree at a path, the specification-side counterpart of domainAt:
none when the path leaves the tree. -/
def subtreeAt? (d : Dom) : List Nat → Option Dom
  | [] => some d
  | i :: rest =>
    match d.children[i]? with
    | some c => subtreeAt? c rest
    | none => none

/-- Total variant of subtreeAt? used to name concrete nodes in
counterexamples; it returns the current node when the path leaves the
tree. -/
def subtreeAtD (d : Dom) : List Nat → Dom
  | [] => d
  | i :: rest =>
    match d.children[i]? with
    | some c => subtreeAtD c rest
    | none => d

/-- Lexicographic comparison of tag component lists, mirroring the
strcmp-based qsort of the tag strings (the orders agree for the
single-digit components used here). -/
def tagLtB : List Nat → List Nat → Bool
  | [], [] => false
  | [], _ :: _ => true
  | _ :: _, [] => false
  | a :: as, b :: bs => if a < b then true else if b < a then false else tagLtB as bs

/-- Insertion into a sorted tag list. -/
def insertTag (t : List Nat) : List (List Nat) → List (List Nat)
  | [] => [t]
  | u :: us => if tagLtB t u then t :: u :: us else u :: insertTag t us

/-- Sorted copy of the subset tags, as built before the single
partition pass of group_subdomains. -/
def sortTags (ts : List (List Nat)) : List (List Nat) :=
  ts.foldr insertTag []

/-- State of the single partition pass of group_subdomains: the
pre-existing group children, the children selected by the sorted
subset tags, the remaining children, and the count of consumed subset
tags. -/
structure PartSt where
  groups : List Dom
  grouped : List Dom
  ungrouped : List Dom
  sdt : Nat

/-- The single partition pass of group_subdomains over the child
vector: group-scope children go to the groups partition, a child whose
tag equals the next unconsumed sorted subset tag goes to the grouped
partition, every other child to the ungrouped partition. -/
def partitionChildren (sorted : List (List Nat)) (cs : List Dom) : PartSt :=
  cs.foldl
    (fun st c =>
      if c.scope = LScope.sGroup then
        { st with groups := st.groups ++ [c] }
      else
        match sorted[st.sdt]? with
        | some t =>
          if c.tag = t then
            { st with grouped := st.grouped ++ [c], sdt := st.sdt + 1 }
          else
            { st with ungrouped := st.ungrouped ++ [c] }
        | none => { st with ungrouped := st.ungrouped ++ [c] })
    ⟨[], [], [], 0⟩

/-- Embedding of dart__base__locality__group_subdomains.  After the
partition pass (and the completeness check on the consumed tags), the
new child vector places the pre-existing groups at indices
0 .. E - 1 with updated relative indices and unchanged tags, the NEW
group domain at relative index E = number of pre-existing groups with
tag parent tag extended by E, and the remaining children AFTER it at
indices E + 1 .., with updated relative indices and unchanged tags.
The grouped children become the children of the new group domain with
rewritten tags and indices. -/
def groupSubdomains (parent : Dom) (tags : List (List Nat)) : Except DartErr Dom :=
  let part := partitionChildren (sortTags tags) parent.children
  if part.sdt ≠ tags.length then Except.error DartErr.notfound
  else
    let e := part.groups.length
    let groupTag := parent.tag ++ [e]
    let groupChildren := part.grouped.enum.map
      (fun p => (p.2).setTagIdxLevel (groupTag ++ [p.1]) p.1 (parent.level + 2))
    let groupDom := Dom.mk groupTag LScope.sGroup e (parent.level + 1)
      ((part.grouped.map Dom.unitIds).flatten) groupChildren
    let gsIdx := part.groups.enum.map (fun p => (p.2).setRelIdx p.1)
    let ugIdx := part.ungrouped.enum.map (fun p => (p.2).setRelIdx (e + 1 + p.1))
    Except.ok (parent.setChildren (gsIdx ++ [groupDom] ++ ugIdx))

/-- Success test for locality results. -/
def exIsOk : Except DartErr Dom → Bool
  | Except.ok _ => true
  | Except.error _ => false

/-- Scope of the node inside a locality lookup result. -/
def exScope : Except DartErr Dom → Option LScope
  | Except.ok d => some d.scope
  | Except.error _ => none

/-- Demo tree, child 0: a core domain holding unit 0. -/
def demoC0 : Dom := Dom.mk [0] LScope.sCore 0 1 [0] []

/-- Demo tree, child 1: a core domain holding unit 1. -/
def demoC1 : Dom := Dom.mk [1] LScope.sCore 1 1 [1] []

/-- Demo tree, child 2: a core domain holding unit 2. -/
def demoC2 : Dom := Dom.mk [2] LScope.sCore 2 1 [2] []

/-- Demo locality tree: a global root with three core children tagged
.0, .1 and .2. -/
def demoParent : Dom :=
  Dom.mk [] LScope.sGlobal 0 0 [0, 1, 2] [demoC0, demoC1, demoC2]

/-- Result of grouping the child tagged .1 of the demo tree, as
computed by groupSubdomains. -/
def gTree : Dom :=
  match groupSubdomains demoParent [[1]] with
  | Except.ok t => t
  | Except.error _ => demoParent

/-- Sample handle with no pending sub-request, as returned by
dart_get_handle for a zero-element transfer. -/
def zeroReqHandle : Handle := ⟨1, false, []⟩

/-- Sample handle with one pending sub-request. -/
def oneReqHandle : Handle := ⟨1, true, [SubReq.remainder 7]⟩

/-- Wait environment in which every transport call succeeds. -/
def wenvW : WaitEnv := ⟨true, true⟩

/-- Collective environment: known team of size 4, reductions succeed. -/
def cenvW : CollEnv := ⟨true, 4, true, true⟩

/-- C1: the unit id range check of the communication operations accepts
the out-of-range unit id equal to the team size.  With a team of size
4 (valid ranks 0..3), dart_get on unit 4 passes CHECK_UNITID_RANGE,
proceeds, and issues a transport transfer, instead of returning
DART_ERR_INVAL with no transfer as the claim requires. -/
theorem dartGet_accepts_unitid_equal_size :
    dartGet envW ⟨4, 0⟩ 3 = (DartRet.ok, [CommEvent.mpiGet 3 false]) := by
  decide

/-- C2: every handle returned by dartGetHandle or dartPutHandle carries
exactly the chunking plan of the transfer as its sub-request list, its
needs_flush bit is false for a get and true for a put, and when the
shared-memory fast path fires the operation returns a NULL handle with
the copy already performed. -/
theorem handle_matches_chunk_plan (env : TeamEnv) (g : Gptr) (nelem : Nat) :
    (∀ h, (dartGetHandle env g nelem).2.1 = some h →
      h.reqs = chunkPlan nelem ∧ h.needsFlush = false) ∧
    (∀ h, (dartPutHandle env g nelem).2.1 = some h →
      h.reqs = chunkPlan nelem ∧ h.needsFlush = true) ∧
    (env.known = true → ¬ (g.unitid < 0 ∨ g.unitid > env.size) →
      0 ≤ g.segid → 0 ≤ env.sharedTab g.unitid →
      (dartGetHandle env g nelem).2.1 = none ∧
      ((dartGetHandle env g nelem).1 = DartRet.ok →
        (dartGetHandle env g nelem).2.2 = [CommEvent.memcpy nelem])) := by
  refine ⟨?_, ?_, ?_⟩
  · intro h hEq
    unfold dartGetHandle at hEq
    repeat' split at hEq
    all_goals try simp at hEq
    all_goals try subst hEq
    all_goals simp_all [chunkPlan]
  · intro h hEq
    unfold dartPutHandle at hEq
    repeat' split at hEq
    all_goals try simp at hEq
    all_goals try subst hEq
    all_goals simp_all [chunkPlan]
  · intro hk hr hs ht
    unfold dartGetHandle
    rw [if_neg (by simp [hk]), if_neg hr, if_pos ⟨hs, ht⟩]
    refine ⟨rfl, ?_⟩
    intro hok
    have hok2 : (getSharedMem env g nelem).1 = DartRet.ok := hok
    show (getSharedMem env g nelem).2 = [CommEvent.memcpy nelem]
    unfold getSharedMem at hok2 ⊢
    split at hok2
    · split at hok2 <;> simp_all
    · simp_all

/-- C2 witness: concrete instances of the three parts of
handle_matches_chunk_plan, for a three-element transfer to unit 1 in a
team of size 4, with the co-located environment for the fast-path
part. -/
theorem handle_matches_chunk_plan_witness :
    (hGW.reqs = chunkPlan 3 ∧ hGW.needsFlush = false) ∧
    (hPW.reqs = chunkPlan 3 ∧ hPW.needsFlush = true) ∧
    (dartGetHandle envShared gW 3).2.1 = none :=
  ⟨(handle_matches_chunk_plan envW gW 3).1 hGW (by decide),
   (handle_matches_chunk_plan envW gW 3).2.1 hPW (by decide),
   ((handle_matches_chunk_plan envShared gW 3).2.2 (by decide) (by decide)
      (by decide) (by decide)).1⟩

/-- C10: whenever dartGetHandle or dartPutHandle returns an error, the
caller handle variable is NULL and the handle allocation (if any) has
been released: the alloc and free events in the trace balance. -/
theorem handle_error_returns_null_handle (env : TeamEnv) (g : Gptr) (nelem : Nat) :
    ((dartGetHandle env g nelem).1 ≠ DartRet.ok →
      (dartGetHandle env g nelem).2.1 = none ∧
      countEv CommEvent.allocHandle (dartGetHandle env g nelem).2.2 =
        countEv CommEvent.freeHandle (dartGetHandle env g nelem).2.2) ∧
    ((dartPutHandle env g nelem).1 ≠ DartRet.ok →
      (dartPutHandle env g nelem).2.1 = none ∧
      countEv CommEvent.allocHandle (dartPutHandle env g nelem).2.2 =
        countEv CommEvent.freeHandle (dartPutHandle env g nelem).2.2) := by
  constructor
  · unfold dartGetHandle getSharedMem
    repeat' split
    all_goals intro hne
    all_goals simp_all [countEv]
  · unfold dartPutHandle
    repeat' split
    all_goals intro hne
    all_goals simp_all [countEv]

/-- C10 witness: with the remainder transport call failing, both
operations return an error, the caller handle variable stays NULL and
the allocated handle was freed. -/
theorem handle_error_returns_null_handle_witness :
    ((dartGetHandle envRemFail gW 3).2.1 = none ∧
      countEv CommEvent.allocHandle (dartGetHandle envRemFail gW 3).2.2 =
        countEv CommEvent.freeHandle (dartGetHandle envRemFail gW 3).2.2) ∧
    ((dartPutHandle envRemFail gW 3).2.1 = none ∧
      countEv CommEvent.allocHandle (dartPutHandle envRemFail gW 3).2.2 =
        countEv CommEvent.freeHandle (dartPutHandle envRemFail gW 3).2.2) :=
  ⟨(handle_error_returns_null_handle envRemFail gW 3).1 (by decide),
   (handle_error_returns_null_handle envRemFail gW 3).2 (by decide)⟩

/-- C3: dart_test_local frees the handle and nulls the caller variable
even when MPI_Testall reports the sub-requests as not finished.  For a
handle with one pending sub-request and a transport answer of not
finished, the call returns OK with the flag at 0 but the handle is
gone, instead of leaving the handle Active as the claim requires.
The cause is the guard if (is_finished) in the source, which tests the
flag pointer instead of the flag value (its sibling
dart_testall_local tests *is_finished). -/
theorem test_local_frees_unfinished_handle :
    dartTestLocal (some oneReqHandle) true false = (DartRet.ok, none, 0) := by
  decide

/-- C4 counterexample: two concrete refutations of the claim.  First,
dart_waitall with a NULL handle array and num_handles = INT_MAX + 1
returns DART_ERR_INVAL instead of being a no-op returning OK.  Second,
a successful dart_waitall over one handle with zero pending
sub-requests (as produced by dart_get_handle with nelem = 0) returns
OK but leaves the handle unfreed and the array entry non-NULL. -/
theorem waitall_noop_claim_cex :
    dartWaitall wenvW none (INTMAX + 1) = (DartRet.errInval, none) ∧
    dartWaitall wenvW (some [some zeroReqHandle]) 1 =
      (DartRet.ok, some [some zeroReqHandle]) := by
  decide

/-- C4 amended: NULL handles, NULL handle pointers and NULL handle
arrays are no-ops returning OK for the wait, wait_local, waitall,
waitall_local and test_local operations, except that the waitall
variants return DART_ERR_INVAL for num_handles above INT_MAX even on a
NULL array; after a successful wait the handle is freed and the caller
variable nulled, and after a successful waitall with at least one
pending sub-request among the handles every array entry is freed and
set to NULL. -/
theorem wait_family_amended (env : WaitEnv) (hd : Handle)
    (l : List (Option Handle)) (n : Nat) :
    dartWait env none = (DartRet.ok, none) ∧
    dartWait env (some none) = (DartRet.ok, some none) ∧
    dartWaitLocal env none = (DartRet.ok, none) ∧
    dartWaitLocal env (some none) = (DartRet.ok, some none) ∧
    (∀ tOk fin, dartTestLocal none tOk fin = (DartRet.ok, none, 1)) ∧
    (n ≤ INTMAX →
      dartWaitall env none n = (DartRet.ok, none) ∧
      dartWaitallLocal env none n = (DartRet.ok, none)) ∧
    ((dartWait env (some (some hd))).1 = DartRet.ok →
      (dartWait env (some (some hd))).2 = some none) ∧
    (0 < n → 0 < (l.map handleReqCount).sum →
      (dartWaitall env (some l) n).1 = DartRet.ok →
      (dartWaitall env (some l) n).2 = some (l.map (fun _ => none))) := by
  refine ⟨rfl, rfl, rfl, rfl, fun tOk fin => rfl, ?_, ?_, ?_⟩
  · intro hn
    constructor
    · unfold dartWaitall
      split
      · rfl
      · rw [if_neg (by omega)]
    · unfold dartWaitallLocal
      split
      · rfl
      · rw [if_neg (by omega)]
  · intro hok
    unfold dartWait at hok ⊢
    repeat' split
    all_goals simp_all
  · intro hn hr hok
    unfold dartWaitall at hok ⊢
    rw [if_neg (by omega)] at hok ⊢
    repeat' split at hok
    all_goals repeat' split
    all_goals simp_all

/-- C4 witness: concrete instances of the amended statement with a
one-request handle in a successful environment. -/
theorem wait_family_amended_witness :
    dartWaitall wenvW none 2 = (DartRet.ok, none) ∧
    (dartWait wenvW (some (some oneReqHandle))).2 = some none ∧
    (dartWaitall wenvW (some [some oneReqHandle]) 1).2 = some [none] :=
  ⟨((wait_family_amended wenvW oneReqHandle [] 2).2.2.2.2.2.1 (by decide)).1,
   (wait_family_amended wenvW oneReqHandle [] 2).2.2.2.2.2.2.1 (by decide),
   (wait_family_amended wenvW oneReqHandle [some oneReqHandle] 1).2.2.2.2.2.2.2
     (by decide) (by decide) (by decide)⟩

/-- C5: sync_images does not pick the smallest id of the subset as
root.  For the subset container [3, 1] (units 3 and 1), the source
dereferences std::min of the begin and end iterators, i.e. the first
element, so unit 3 becomes root and the smallest unit 1 acts as a
leaf; a unit outside the subset returns immediately. -/
theorem sync_images_root_not_minimum :
    syncImagesRootId [3, 1] = 3 ∧
    syncImages [3, 1] 1 = SyncRole.asLeaf 3 ∧
    syncImages [3, 1] 3 = SyncRole.asRoot [1] ∧
    syncImages [3, 1] 2 = SyncRole.notInSubset := by
  decide

/-- C6: domain_split_tags miscomputes the size of the last non-full
group.  For 3 domains split into 2 parts the ceil bound is 2 and the
source computes group sizes [2, (1 * 2) - 3] = [2, -1]: the second
size is negative and the sizes sum to 1 instead of 3, where the claim
requires [2, 3 - 1 * 2] = [2, 1]. -/
theorem split_tags_negative_group_size :
    splitGroupSizes 3 2 = [2, -1] ∧
    (splitGroupSizes 3 2).sum ≠ 3 ∧
    splitGroupSize 3 2 1 < 0 := by
  decide

/-- C7: group_subdomains does not append the new group domain as the
last child.  Grouping the child tagged .1 of a parent with three core
children and no pre-existing group yields the child vector
[group, remaining, remaining]: the new group sits at relative index 0
(the number of pre-existing groups) BEFORE the remaining children, and
the remaining child moved to index 1 keeps its stale tag .0 instead of
being renumbered. -/
theorem group_subdomains_group_not_last :
    exIsOk (groupSubdomains demoParent [[1]]) = true ∧
    gTree.children.map (fun c => (c.tag, c.scope, c.relIdx)) =
      [([0], LScope.sGroup, 0), ([0], LScope.sCore, 1), ([2], LScope.sCore, 2)] := by
  decide

/-- C8 counterexample: in the tree produced by grouping child .1 of the
demo tree, the node at path [1] (the former child .0, moved to index 1
with its stale tag .0) is not returned by looking up its own tag: the
lookup lands on the new group domain, which also carries tag .0. -/
theorem domainAt_stale_tag_cex :
    (domainAt gTree (subtreeAtD gTree [1]).tag =
      Except.ok (subtreeAtD gTree [1])) = False := by
  refine eq_false ?_
  intro hEq
  have h2 := congrArg exScope hEq
  revert h2
  decide

/-- C8 amended: the tag walk of dart__base__locality__domain returns
exactly the node reached by the tag components whenever that path
exists in the tree; equivalently, for every node whose stored tag
satisfies the tag invariant (tag of a node = tag of the root extended
by its path), looking the tag up from the root yields that node.
Trees rewritten by group_subdomains can violate the invariant, and
then a lookup by a stored tag may return a different node. -/
theorem domainAt_subtree_path (d : Dom) (p : List Nat) (c : Dom)
    (h : subtreeAt? d p = some c) : domainAt d p = Except.ok c := by
  induction p generalizing d with
  | nil =>
    simp only [subtreeAt?, Option.some.injEq] at h
    rw [domainAt, h]
  | cons i rest ih =>
    simp only [subtreeAt?] at h
    cases hg : d.children[i]? with
    | none => rw [hg] at h; exact Option.noConfusion h
    | some ch =>
      rw [hg] at h
      have hlt : ¬ d.children.length ≤ i := by
        intro hle
        rw [List.getElem?_eq_none hle] at hg
        exact Option.noConfusion hg
      rw [domainAt, if_neg hlt, hg]
      exact ih ch h

/-- C8 witness: looking up the path of the child tagged .2 in the
unmodified demo tree returns that child. -/
theorem domainAt_subtree_path_witness :
    domainAt demoParent [2] = Except.ok demoC2 :=
  domainAt_subtree_path demoParent [2] demoC2 rfl

/-- C9: dart_allreduce and dart_reduce return DART_ERR_INVAL for any
element count above CHUNK before any transport call, and for counts
within the bound (on a resolved team, with an accepted root for
dart_reduce) they issue exactly one un-chunked transport reduction
carrying the full element count. -/
theorem reduce_rejects_overlong_unchunked (env : CollEnv) (root : Int) (nelem : Nat) :
    (nelem > CHUNK →
      dartAllreduce env nelem = (DartRet.errInval, []) ∧
      dartReduce env root nelem = (DartRet.errInval, [])) ∧
    (nelem ≤ CHUNK → env.known = true →
      (dartAllreduce env nelem).2 = [RedCall.allreduce nelem] ∧
      (¬ (root < 0 ∨ root > env.size) →
        (dartReduce env root nelem).2 = [RedCall.reduce nelem])) := by
  constructor
  · intro hgt
    constructor
    · unfold dartAllreduce
      rw [if_pos hgt]
    · unfold dartReduce
      rw [if_pos hgt]
  · intro hle hk
    constructor
    · unfold dartAllreduce
      rw [if_neg (by omega), if_neg (by simp [hk])]
      split <;> rfl
    · intro hroot
      unfold dartReduce
      rw [if_neg (by omega), if_neg (by simp [hk]), if_neg hroot]
      split <;> rfl

/-- C9 witness: a count of CHUNK + 1 elements is rejected with no
transport call, and a count of 5 elements on a known team with root 0
issues the single un-chunked reduction. -/
theorem reduce_rejects_overlong_unchunked_witness :
    dartAllreduce cenvW (CHUNK + 1) = (DartRet.errInval, []) ∧
    (dartAllreduce cenvW 5).2 = [RedCall.allreduce 5] ∧
    (dartReduce cenvW 0 5).2 = [RedCall.reduce 5] :=
  ⟨((reduce_rejects_overlong_unchunked cenvW 0 (CHUNK + 1)).1 (by decide)).1,
   ((reduce_rejects_overlong_unchunked cenvW 0 5).2 (by decide) (by decide)).1,
   ((reduce_rejects_overlong_unchunked cenvW 0 5).2 (by decide) (by decide)).2
     (by decide)⟩

end DashSpec
